import Mathlib

set_option maxRecDepth 8000

/-!
A shallow embedding of the LexBrowserAutomation navigation core
(`main.py`, class `WebsiteNavigator`), used to verify the repository's
specification claims.

Strings are modelled as `List Char`.  The browser page and the Gemini
decision oracle are external collaborators; they are modelled as
abstract transition functions (`Browser`) and an indexed text source
(`Oracle`).  Machine execution is modelled by explicit state passing,
with every page/oracle interaction recorded in an event trace.
-/

/-- Whitespace characters recognised by Python's `str.strip()` and the
regex class `\s` (ASCII range), as used in `main.py`. -/
def isPyWs (c : Char) : Bool :=
  c == ' ' || c == '\t' || c == '\n' || c == '\r' || c == '\x0b' || c == '\x0c'

/-- Python `str.strip()`: drop leading and trailing whitespace. -/
def pyStrip (s : List Char) : List Char :=
  ((s.dropWhile isPyWs).reverse.dropWhile isPyWs).reverse

/-- Split a text into its lines at `'\n'`, the line boundaries used by
`re.MULTILINE` anchors `^` and `$` in `_extract_json_from_gemini_response`. -/
def splitLines : List Char → List (List Char)
  | [] => [[]]
  | c :: rest =>
    if c = '\n' then [] :: splitLines rest
    else
      match splitLines rest with
      | [] => [[c]]
      | l :: ls => (c :: l) :: ls

/-- Rejoin lines with `'\n'`; left inverse of `splitLines`. -/
def joinLines : List (List Char) → List Char
  | [] => []
  | [l] => l
  | l :: ls => l ++ '\n' :: joinLines ls

/-- The opening fence the regex alternative `^```json` removes. -/
def fenceOpenJson : List Char := ("```json").toList

/-- The closing fence the regex alternative ` ```$ ` removes. -/
def fenceClose : List Char := ("```").toList

/-- Effect of `re.sub(r"^```json|```$", "", line)` on a single line:
remove a leading literal ```` ```json ````, then remove a trailing
literal ```` ``` ```` (the `re.MULTILINE` anchors restrict the two
alternatives to the start and the end of each line). -/
def cleanLine (l : List Char) : List Char :=
  let l1 := if fenceOpenJson.isPrefixOf l then l.drop 7 else l
  if fenceClose.isSuffixOf l1 then l1.take (l1.length - 3) else l1

/-- The cleaning step of `_extract_json_from_gemini_response`:
`re.sub(r"^```json|```$", "", text, flags=re.MULTILINE).strip()`. -/
def cleanFence (s : List Char) : List Char :=
  pyStrip (joinLines ((splitLines s).map cleanLine))

/-- Parsed JSON values, the result type of Python's `json.loads` as used
by the navigator (objects keep key insertion order, later duplicate keys
overwrite earlier ones). -/
inductive Json where
  | null : Json
  | bool (b : Bool) : Json
  | num (n : Int) : Json
  | str (s : List Char) : Json
  | arr (items : List Json) : Json
  | obj (fields : List (List Char × Json)) : Json

/-- Key lookup in a parsed JSON object (Python `dict` access). -/
def jLookup (fields : List (List Char × Json)) (k : List Char) : Option Json :=
  match fields with
  | [] => none
  | (k', v) :: rest => if k' = k then some v else jLookup rest k

/-- Python `dict` insertion while parsing an object: a repeated key
overwrites in place, a new key is appended. -/
def dictInsert (fields : List (List Char × Json)) (k : List Char) (v : Json) :
    List (List Char × Json) :=
  match fields with
  | [] => [(k, v)]
  | (k', v') :: rest =>
    if k' = k then (k, v) :: rest else (k', v') :: dictInsert rest k v

/-- JSON insignificant whitespace. -/
def isJsonWs (c : Char) : Bool :=
  c == ' ' || c == '\t' || c == '\n' || c == '\r'

/-- Skip JSON insignificant whitespace. -/
def skipWs (s : List Char) : List Char := s.dropWhile isJsonWs

/-- Parse the body of a JSON string after the opening quote, handling
single-character escapes; returns the decoded text and the remainder
after the closing quote. -/
def parseStringBody : List Char → Option (List Char × List Char)
  | [] => none
  | c :: rest =>
    if c = '"' then some ([], rest)
    else if c = '\\' then
      match rest with
      | [] => none
      | e :: rest' =>
        let dec : Option Char :=
          if e = '"' then some '"'
          else if e = '\\' then some '\\'
          else if e = '/' then some '/'
          else if e = 'n' then some '\n'
          else if e = 't' then some '\t'
          else if e = 'r' then some '\r'
          else if e = 'b' then some '\x08'
          else if e = 'f' then some '\x0c'
          else none
        match dec with
        | none => none
        | some d =>
          match parseStringBody rest' with
          | none => none
          | some (body, rest2) => some (d :: body, rest2)
    else
      match parseStringBody rest with
      | none => none
      | some (body, rest2) => some (c :: body, rest2)

/-- Longest leading digit run of a text. -/
def parseDigits (s : List Char) : List Char × List Char :=
  (s.takeWhile Char.isDigit, s.dropWhile Char.isDigit)

/-- Numeric value of a digit run. -/
def digitsToNat (ds : List Char) : Nat :=
  ds.foldl (fun acc c => acc * 10 + (c.toNat - ('0').toNat)) 0

mutual

/-- Model of `json.loads`'s recursive-descent value parser, fueled to
bound nesting.  Covers the JSON forms the navigator exchanges with the
oracle: objects, arrays, strings, integers, booleans, null. -/
def parseVal : Nat → List Char → Option (Json × List Char)
  | 0, _ => none
  | fuel + 1, s0 =>
    match skipWs s0 with
    | [] => none
    | c :: rest =>
      if c = '"' then
        match parseStringBody rest with
        | none => none
        | some (body, rest') => some (Json.str body, rest')
      else if c = '\x7b' then
        match skipWs rest with
        | '\x7d' :: rest' => some (Json.obj [], rest')
        | _ => parseMembers fuel rest []
      else if c = '[' then
        match skipWs rest with
        | ']' :: rest' => some (Json.arr [], rest')
        | _ => parseItems fuel rest []
      else if c = 't' then
        if rest.take 3 = ['r', 'u', 'e'] then some (Json.bool true, rest.drop 3)
        else none
      else if c = 'f' then
        if rest.take 4 = ['a', 'l', 's', 'e'] then some (Json.bool false, rest.drop 4)
        else none
      else if c = 'n' then
        if rest.take 3 = ['u', 'l', 'l'] then some (Json.null, rest.drop 3)
        else none
      else if c = '-' then
        match parseDigits rest with
        | ([], _) => none
        | (ds, rest') => some (Json.num (-(digitsToNat ds : Int)), rest')
      else if c.isDigit then
        match parseDigits (c :: rest) with
        | (ds, rest') => some (Json.num (digitsToNat ds), rest')
      else none

/-- Parse the members of a JSON object after its opening brace. -/
def parseMembers : Nat → List Char → List (List Char × Json) →
    Option (Json × List Char)
  | 0, _, _ => none
  | fuel + 1, s, acc =>
    match skipWs s with
    | '"' :: rest =>
      match parseStringBody rest with
      | none => none
      | some (key, rest1) =>
        match skipWs rest1 with
        | ':' :: rest2 =>
          match parseVal fuel rest2 with
          | none => none
          | some (v, rest3) =>
            match skipWs rest3 with
            | ',' :: rest4 => parseMembers fuel rest4 (dictInsert acc key v)
            | '\x7d' :: rest4 => some (Json.obj (dictInsert acc key v), rest4)
            | _ => none
        | _ => none
    | _ => none

/-- Parse the items of a JSON array after its opening bracket. -/
def parseItems : Nat → List Char → List Json → Option (Json × List Char)
  | 0, _, _ => none
  | fuel + 1, s, acc =>
    match parseVal fuel s with
    | none => none
    | some (v, rest) =>
      match skipWs rest with
      | ',' :: rest' => parseItems fuel rest' (acc ++ [v])
      | ']' :: rest' => some (Json.arr (acc ++ [v]), rest')
      | _ => none

end

/-- Model of `json.loads`: parse one value and require only whitespace
to remain; `none` models a raised `json.JSONDecodeError`. -/
def jsonLoads (s : List Char) : Option Json :=
  match parseVal (s.length + 1) s with
  | some (v, rest) => if skipWs rest = [] then some v else none
  | none => none

/-- `WebsiteNavigator._extract_json_from_gemini_response`: strip the
code-fence markup, `strip()` the remainder, and parse it as JSON.
`none` models the raised parse exception. -/
def extract_json_from_gemini_response (recommended_action : List Char) :
    Option Json :=
  jsonLoads (cleanFence recommended_action)

/-- Characters accepted by the regex class `[^\s\"]` of
`_extract_url_from_prompt`. -/
def isUrlChar (c : Char) : Bool := !(isPyWs c) && c != '"'

/-- The literal scheme text `http://`. -/
def httpSlashes : List Char := ("http://").toList

/-- The literal scheme text `https://`. -/
def httpsSlashes : List Char := ("https://").toList

/-- One attempt of the regex `https?://[^\s\"]+` at a fixed position:
the optional `s` is taken greedily, and the tail run must be nonempty. -/
def matchUrlAt (s : List Char) : Option (List Char) :=
  if httpsSlashes.isPrefixOf s then
    let run := (s.drop 8).takeWhile isUrlChar
    if run = [] then none else some (httpsSlashes ++ run)
  else if httpSlashes.isPrefixOf s then
    let run := (s.drop 7).takeWhile isUrlChar
    if run = [] then none else some (httpSlashes ++ run)
  else none

/-- `re.search`: the match at the leftmost position where one exists. -/
def searchUrl : List Char → Option (List Char)
  | [] => none
  | c :: cs =>
    match matchUrlAt (c :: cs) with
    | some m => some m
    | none => searchUrl cs

/-- `WebsiteNavigator._extract_url_from_prompt`: regex search for a URL,
then the (always-satisfied) scheme recheck from the source. -/
def extract_url_from_prompt (p : List Char) : Option (List Char) :=
  match searchUrl p with
  | none => none
  | some url =>
    if httpSlashes.isPrefixOf url || httpsSlashes.isPrefixOf url then some url
    else none

/-- One interactive element of the current page, as the playwright
handles expose it to `_process_elements`: lowercased tag name, raw
inner text, full attribute mapping, visibility flag. -/
structure PElement where
  tag : List Char
  text : List Char
  attributes : List (List Char × List Char)
  visible : Bool

/-- Attribute mapping rendered as the JSON-like dict the prompt embeds. -/
def attrsToJson (attrs : List (List Char × List Char)) : Json :=
  Json.obj (attrs.map (fun a => (a.1, Json.str a.2)))

/-- One entry of `processed_tags` built by `_process_elements`. -/
def processElement (e : PElement) : Json :=
  Json.obj [
    (("tag").toList, Json.str e.tag),
    (("content").toList, Json.obj [
      (("text").toList,
        Json.str (if pyStrip e.text = [] then ("[No Text]").toList
                  else pyStrip e.text)),
      (("attributes").toList, attrsToJson e.attributes),
      (("visible").toList, Json.bool e.visible)])]

/-- `WebsiteNavigator._process_elements`: keep only visible elements,
each rendered in the structured observation format. -/
def process_elements (es : List PElement) : List Json :=
  (es.filter (fun e => e.visible)).map processElement

/-- A CSS selector the executor builds.  `hrefSel v` stands for the
f-string `a[href='{v}']` (carrying the raw Python value interpolated,
`none` rendering as the literal text `None`); `textSel t` stands for
`a:has-text('{t}')`. -/
inductive Selector where
  | hrefSel (v : Option Json)
  | textSel (t : List Char)

/-- Observable interactions of one session with the page, the oracle
and the browser lifecycle, in program order. -/
inductive Event where
  | launch
  | gotoUrl (u : List Char)
  | extract (n : Nat)
  | oracleCall (idx : Nat)
  | clickAttempt (sel : Selector)
  | clickSuccess (sel : Selector)
  | hoverAttempt (t : List Char)
  | hoverSuccess (t : List Char)
  | closeBrowser

/-- Mutable session state threaded through the execution: abstract page
state, number of oracle calls issued so far, and the event trace. -/
structure St where
  pg : Nat
  calls : Nat
  tr : List Event

/-- The external browser/page capability: pages are abstract states
(`Nat`), and each operation of the source is a transition or query.
`launchOk = false` models `chromium.launch` raising. -/
structure Browser where
  launchOk : Bool
  elems : Nat → List PElement
  clickOk : Nat → Selector → Bool
  clickNext : Nat → Selector → Nat
  liCount : Nat → List Char → Nat
  hoverOk : Nat → List Char → Bool
  hoverNext : Nat → List Char → Nat

/-- The decision oracle: raw response text of the k-th oracle call of
the session (the session is deterministic, so indexing calls is as
general as reading the prompt). -/
def Oracle : Type := Nat → List Char

/-- Python `next_steps == "exit_now"`. -/
def isExitNow (j : Json) : Bool :=
  match j with
  | Json.str s => s = ("exit_now").toList
  | _ => false

/-- Python `href == "#"` on the value read from `element_attributes`. -/
def isHashHref (href : Option Json) : Bool :=
  match href with
  | some (Json.str s) => s = ("#").toList
  | _ => false

/-- Python `recommended_action["next_steps"][0]`: first entry of an
array, first character of a string, a raised exception otherwise. -/
def firstStep (j : Json) : Option Json :=
  match j with
  | Json.arr (s :: _) => some s
  | Json.str (c :: _) => some (Json.str [c])
  | _ => none

/-- The selector loop of `_click_recommended_elements` (lines 170-191):
try each selector in order; on the first successful click return
`False` for the `exit_now` sentinel and `True` otherwise; return
`False` when every selector fails. -/
def trySelectors (B : Browser) (step0 : Json) : St → List Selector → Bool × St
  | st, [] => (false, st)
  | st, sel :: rest =>
    let st1 : St := { st with tr := st.tr ++ [Event.clickAttempt sel] }
    if B.clickOk st.pg sel then
      let st2 : St := { st1 with
                        pg := B.clickNext st.pg sel
                        tr := st1.tr ++ [Event.clickSuccess sel] }
      if isExitNow step0 then (false, st2) else (true, st2)
    else trySelectors B step0 st1 rest

/-- Per-call outcome of `_click_recommended_elements`: normal return of
a boolean, an exception propagating to the caller (only the top-level
`json.loads` failure escapes), or recursion past the modelling fuel
(the source recursion has no bound). -/
inductive ExecOut where
  | diverge (st : St)
  | exc (st : St)
  | ret (b : Bool) (st : St)

/-- Body of `_click_recommended_elements` after its JSON parse (lines
127-195 of `main.py`).  Field-access failures (`KeyError`,
`TypeError`, `AttributeError`, `IndexError`, and `.strip()` on a
non-string) are caught by the function's own handlers and become
`return False`.  `fuel` bounds only the modelled recursion depth of the
hover-then-reselect path; the source has no such bound. -/
def clickRecJson (B : Browser) (O : Oracle) : Nat → St → Json → ExecOut
  | fuel, st, j =>
    match j with
    | Json.obj topFields =>
      match jLookup topFields (("recommended_action").toList) with
      | some (Json.obj raFields) =>
        match jLookup raFields (("element_text").toList) with
        | some (Json.str et) =>
          match jLookup raFields (("element_attributes").toList) with
          | some (Json.obj attrFields) =>
            let href : Option Json := jLookup attrFields (("href").toList)
            match jLookup topFields (("next_steps").toList) with
            | some ns =>
              match firstStep ns with
              | some step0 =>
                let etStripped := pyStrip et
                if isHashHref href then
                  -- dropdown branch (lines 142-167)
                  if B.liCount st.pg etStripped > 0 then
                    if B.hoverOk st.pg etStripped then
                      let st1 : St :=
                        { st with
                          pg := B.hoverNext st.pg etStripped
                          tr := st.tr ++ [Event.hoverAttempt etStripped,
                                          Event.hoverSuccess etStripped] }
                      let newElems := B.elems st1.pg
                      let st2 : St :=
                        { st1 with tr := st1.tr ++ [Event.extract newElems.length] }
                      if newElems.isEmpty then
                        -- empty submenu: fall through to the selector loop
                        let r := trySelectors B step0 st2
                          [Selector.hrefSel href, Selector.textSel etStripped]
                        ExecOut.ret r.1 r.2
                      else
                        let resp := O st2.calls
                        let st3 : St :=
                          { st2 with
                            calls := st2.calls + 1
                            tr := st2.tr ++ [Event.oracleCall st2.calls] }
                        match fuel with
                        | 0 => ExecOut.diverge st3
                        | f + 1 =>
                          match extract_json_from_gemini_response resp with
                          | none => ExecOut.ret false st3
                          | some j' =>
                            match clickRecJson B O f st3 j' with
                            | ExecOut.diverge st' => ExecOut.diverge st'
                            | ExecOut.exc st' => ExecOut.ret false st'
                            | ExecOut.ret b st' => ExecOut.ret b st'
                    else
                      -- hover raised: caught at line 165, return False
                      ExecOut.ret false
                        { st with tr := st.tr ++ [Event.hoverAttempt etStripped] }
                  else
                    -- no matching ancestor: fall through to the selector loop
                    let r := trySelectors B step0 st
                      [Selector.hrefSel href, Selector.textSel etStripped]
                    ExecOut.ret r.1 r.2
                else
                  -- direct-link branch (lines 170-191)
                  let r := trySelectors B step0 st
                    [Selector.hrefSel href, Selector.textSel etStripped]
                  ExecOut.ret r.1 r.2
              | none => ExecOut.ret false st
            | none => ExecOut.ret false st
          | _ => ExecOut.ret false st
        | _ => ExecOut.ret false st
      | _ => ExecOut.ret false st
    | _ => ExecOut.ret false st

/-- `WebsiteNavigator._click_recommended_elements`: parse the raw oracle
text (line 125; a parse failure propagates to the caller), then run the
body. -/
def click_recommended_elements (B : Browser) (O : Oracle) (fuel : Nat)
    (st : St) (raw : List Char) : ExecOut :=
  match extract_json_from_gemini_response raw with
  | none => ExecOut.exc st
  | some j => clickRecJson B O fuel st j

/-- Session-level outcome of `visit_website`: either a terminated
session with its Python return value (`none` for `None`, `some false`
for `False`; the source never returns a dict) and its full event trace,
or divergence of the executor's unbounded recursion past the modelling
fuel. -/
inductive SessionOut where
  | diverge (st : St)
  | done (r : Option Bool) (tr : List Event)

/-- The `for _ in range(self.MAX_TRIES)` loop of `visit_website`
(lines 39-64): extract elements, return `None` on an empty element
list, otherwise call the oracle and the executor; `continue` on `True`,
return `False` on `False`, return `None` when the executor raises, and
fall through to an implicit `None` when the budget is exhausted.
The `finally` block closes the browser on each of these exits. -/
def loopIter (B : Browser) (O : Oracle) (fuel : Nat) : Nat → St → SessionOut
  | 0, st => SessionOut.done none (st.tr ++ [Event.closeBrowser])
  | n + 1, st =>
    let es := B.elems st.pg
    let st1 : St := { st with tr := st.tr ++ [Event.extract es.length] }
    if es.isEmpty then SessionOut.done none (st1.tr ++ [Event.closeBrowser])
    else
      let resp := O st1.calls
      let st2 : St := { st1 with
                        calls := st1.calls + 1
                        tr := st1.tr ++ [Event.oracleCall st1.calls] }
      match click_recommended_elements B O fuel st2 resp with
      | ExecOut.diverge st' => SessionOut.diverge st'
      | ExecOut.exc st' => SessionOut.done none (st'.tr ++ [Event.closeBrowser])
      | ExecOut.ret true st' => loopIter B O fuel n st'
      | ExecOut.ret false st' =>
        SessionOut.done (some false) (st'.tr ++ [Event.closeBrowser])

/-- The value `self.MAX_TRIES` is given in `WebsiteNavigator.__init__`. -/
def MAX_TRIES_init : Nat := 100

/-- `WebsiteNavigator.visit_website`: launch the browser, extract the
URL from the prompt (raising `ValueError` when absent, which the outer
handler turns into `None`), navigate, and run the bounded loop.  The
`finally` block closes the browser whenever it was launched; when the
launch itself raises, no browser exists and none is closed. -/
def visit_website (B : Browser) (O : Oracle) (maxTries fuel : Nat)
    (prompt : List Char) : SessionOut :=
  if B.launchOk then
    match extract_url_from_prompt prompt with
    | none => SessionOut.done none [Event.launch, Event.closeBrowser]
    | some u =>
      loopIter B O fuel maxTries
        { pg := 0, calls := 0, tr := [Event.launch, Event.gotoUrl u] }
  else SessionOut.done none []

/-- Python return value of a terminated session. -/
def SessionOut.result : SessionOut → Option (Option Bool)
  | SessionOut.diverge _ => none
  | SessionOut.done r _ => some r

/-- Event trace of a session (trace so far, for a diverging one). -/
def SessionOut.trace : SessionOut → List Event
  | SessionOut.diverge st => st.tr
  | SessionOut.done _ tr => tr

/-- Whether the session outran the modelling fuel. -/
def SessionOut.isDiverge : SessionOut → Bool
  | SessionOut.diverge _ => true
  | SessionOut.done _ _ => false

/-- State carried by an executor outcome. -/
def ExecOut.stOf : ExecOut → St
  | ExecOut.diverge st => st
  | ExecOut.exc st => st
  | ExecOut.ret _ st => st

/-- Whether the executor outran the modelling fuel. -/
def ExecOut.isDiverge : ExecOut → Bool
  | ExecOut.diverge _ => true
  | _ => false

/-- Count the trace events satisfying a predicate. -/
def countEv (p : Event → Bool) (tr : List Event) : Nat :=
  (tr.filter p).length

/-- Recognise the browser-acquisition event. -/
def isLaunchEv : Event → Bool
  | Event.launch => true
  | _ => false

/-- Recognise the browser-release event. -/
def isCloseEv : Event → Bool
  | Event.closeBrowser => true
  | _ => false

/-- Recognise an oracle decision call. -/
def isOracleEv : Event → Bool
  | Event.oracleCall _ => true
  | _ => false

/-- Recognise a hover interaction of the dropdown path. -/
def isHoverEv : Event → Bool
  | Event.hoverAttempt _ => true
  | Event.hoverSuccess _ => true
  | _ => false

/-- The click attempts of a trace, in order. -/
def clickAttempts (tr : List Event) : List Selector :=
  tr.filterMap (fun e =>
    match e with
    | Event.clickAttempt s => some s
    | _ => none)

/-- Events recorded inside one executor call or loop step: never a
lifecycle event (`launch`, `gotoUrl`, `closeBrowser`). -/
def isStepEv : Event → Bool
  | Event.launch => false
  | Event.gotoUrl _ => false
  | Event.closeBrowser => false
  | _ => true

/-- The JSON key `recommended_action`. -/
def raKey : List Char := ("recommended_action").toList

/-- The JSON key `element_text`. -/
def etKey : List Char := ("element_text").toList

/-- The JSON key `element_attributes`. -/
def attrKey : List Char := ("element_attributes").toList

/-- The JSON key `next_steps`. -/
def nsKey : List Char := ("next_steps").toList

/-- The JSON key `href`. -/
def hrefKey : List Char := ("href").toList

/-- A fenced block around a raw oracle text, with the given language
tag on the opening fence. -/
def fenceWrap (tag t : List Char) : List Char :=
  ("```").toList ++ tag ++ '\n' :: t ++ '\n' :: ("```").toList

/-- An instruction prompt holding one URL. -/
def promptEx : List Char := ("visit https://example.com/ now").toList

/-- The URL inside `promptEx`. -/
def urlEx : List Char := ("https://example.com/").toList

/-- An instruction prompt holding no URL. -/
def promptNoUrl : List Char := ("download the holiday list").toList

/-- A visible link element whose recommendation ends the task. -/
def elemDone : PElement :=
  { tag := ("a").toList, text := ("Done").toList,
    attributes := [(hrefKey, ("/x").toList)], visible := true }

/-- A visible link element for a continuing recommendation. -/
def elemGo : PElement :=
  { tag := ("a").toList, text := ("Go").toList,
    attributes := [(hrefKey, ("/a").toList)], visible := true }

/-- A visible dropdown-trigger link (`href="#"`). -/
def elemSvc : PElement :=
  { tag := ("a").toList, text := ("Services").toList,
    attributes := [(hrefKey, ("#").toList)], visible := true }

/-- An attached but invisible link element. -/
def elemHidden : PElement :=
  { tag := ("a").toList, text := ("Hidden").toList,
    attributes := [(hrefKey, ("/h").toList)], visible := false }

/-- Oracle text recommending `Done` with first next step `exit_now`. -/
def rawStop : List Char :=
  ("\x7b\"recommended_action\": \x7b\"element_text\": \"Done\", \"element_attributes\": \x7b\"href\": \"/x\"\x7d\x7d, \"next_steps\": [\"exit_now\"]\x7d").toList

/-- Oracle text recommending `Go` with a continuing next step. -/
def rawCont : List Char :=
  ("\x7b\"recommended_action\": \x7b\"element_text\": \"Go\", \"element_attributes\": \x7b\"href\": \"/a\"\x7d\x7d, \"next_steps\": [\"again\"]\x7d").toList

/-- Oracle text recommending the dropdown trigger `Services`
(`href="#"`). -/
def rawDrop : List Char :=
  ("\x7b\"recommended_action\": \x7b\"element_text\": \"Services\", \"element_attributes\": \x7b\"href\": \"#\"\x7d\x7d, \"next_steps\": [\"hover\"]\x7d").toList

/-- Oracle text whose `element_attributes` holds no `href` entry. -/
def rawNoHref : List Char :=
  ("\x7b\"recommended_action\": \x7b\"element_text\": \"Go\", \"element_attributes\": \x7b\x7d\x7d, \"next_steps\": [\"go\"]\x7d").toList

/-- Oracle text that parses as JSON but has no required field. -/
def rawEmptyObj : List Char := ("\x7b\x7d").toList

/-- Oracle text that is not JSON at all. -/
def rawGarbage : List Char := ("click the best link").toList

/-- Parsed value of `rawDrop`. -/
def jDrop : Json :=
  Json.obj [
    (raKey, Json.obj [
      (etKey, Json.str (("Services").toList)),
      (attrKey, Json.obj [(hrefKey, Json.str (("#").toList))])]),
    (nsKey, Json.arr [Json.str (("hover").toList)])]

/-- A page with one visible link and every click succeeding. -/
def Bstop : Browser :=
  { launchOk := true
    elems := fun _ => [elemDone]
    clickOk := fun _ _ => true
    clickNext := fun _ _ => 0
    liCount := fun _ _ => 0
    hoverOk := fun _ _ => false
    hoverNext := fun _ _ => 0 }

/-- Same page but every click attempt times out. -/
def Bfail : Browser :=
  { Bstop with clickOk := fun _ _ => false }

/-- A page with one visible link for the continuing scenario. -/
def Bcont : Browser :=
  { Bstop with elems := fun _ => [elemGo] }

/-- A page whose only attached element is invisible. -/
def Bhidden : Browser :=
  { Bstop with elems := fun _ => [elemHidden], clickOk := fun _ _ => false }

/-- A page like `Bdrop` whose post-hover element extraction finds
nothing. -/
def BdropEmpty : Browser :=
  { launchOk := true
    elems := fun _ => []
    clickOk := fun _ _ => false
    clickNext := fun _ _ => 0
    liCount := fun _ _ => 1
    hoverOk := fun _ _ => true
    hoverNext := fun _ _ => 0 }

/-- A page with a dropdown trigger: an ancestor list item exists, hover
succeeds, and the submenu again shows the trigger. -/
def Bdrop : Browser :=
  { launchOk := true
    elems := fun _ => [elemSvc]
    clickOk := fun _ _ => false
    clickNext := fun _ _ => 0
    liCount := fun _ _ => 1
    hoverOk := fun _ _ => true
    hoverNext := fun _ _ => 0 }

/-- Constant oracle answering `rawStop`. -/
def Ostop : Oracle := fun _ => rawStop

/-- Constant oracle answering `rawCont`. -/
def Ocont : Oracle := fun _ => rawCont

/-- Constant oracle answering `rawDrop`. -/
def Odrop : Oracle := fun _ => rawDrop

/-- Constant oracle answering `rawEmptyObj`. -/
def OemptyObj : Oracle := fun _ => rawEmptyObj

/-- Constant oracle answering `rawGarbage`. -/
def Ogarbage : Oracle := fun _ => rawGarbage

/-- Oracle text whose `recommended_action` object lacks
`element_text`. -/
def rawNoText : List Char :=
  ("\x7b\"recommended_action\": \x7b\x7d\x7d").toList

/-- Oracle text with a complete `recommended_action` but no
`next_steps` entry. -/
def rawNoSteps : List Char :=
  ("\x7b\"recommended_action\": \x7b\"element_text\": \"Go\", \"element_attributes\": \x7b\x7d\x7d\x7d").toList

/-- Constant oracle answering `rawNoText`. -/
def OnoText : Oracle := fun _ => rawNoText

/-- Constant oracle answering `rawNoSteps`. -/
def OnoSteps : Oracle := fun _ => rawNoSteps

/-- Python return value of a normally returning executor call. -/
def ExecOut.retVal : ExecOut → Option Bool
  | ExecOut.ret b _ => some b
  | _ => none

/-- Oracle-call count at the point the modelling fuel ran out, `none`
for an execution that terminated within fuel. -/
def ExecOut.divergeCalls : ExecOut → Option Nat
  | ExecOut.diverge st => some st.calls
  | _ => none

/-- Oracle-call count at the point the modelling fuel ran out, `none`
for a session that terminated within fuel. -/
def SessionOut.divergeCalls : SessionOut → Option Nat
  | SessionOut.diverge st => some st.calls
  | _ => none

/-- An initial executor state used by concrete executor runs. -/
def st0 : St := { pg := 0, calls := 0, tr := [] }

/-- A page with no attached `a`/`button` element at all. -/
def Bempty : Browser :=
  { Bstop with elems := fun _ => [] }

/-- Attribute fields of the `rawCont` recommendation. -/
def attrsCont : List (List Char × Json) := [(hrefKey, Json.str (("/a").toList))]

/-- `recommended_action` fields of the `rawCont` recommendation. -/
def rafCont : List (List Char × Json) :=
  [(etKey, Json.str (("Go").toList)), (attrKey, Json.obj attrsCont)]

/-- Top-level fields of the `rawCont` recommendation. -/
def tfCont : List (List Char × Json) :=
  [(raKey, Json.obj rafCont), (nsKey, Json.arr [Json.str (("again").toList)])]

/-- Parsed value of `rawCont`. -/
def jCont : Json := Json.obj tfCont

/-- Attribute fields of the `rawDrop` recommendation. -/
def attrsDrop : List (List Char × Json) := [(hrefKey, Json.str (("#").toList))]

/-- `recommended_action` fields of the `rawDrop` recommendation. -/
def rafDrop : List (List Char × Json) :=
  [(etKey, Json.str (("Services").toList)), (attrKey, Json.obj attrsDrop)]

/-- Top-level fields of the `rawDrop` recommendation. -/
def tfDrop : List (List Char × Json) :=
  [(raKey, Json.obj rafDrop), (nsKey, Json.arr [Json.str (("hover").toList)])]

/-! ## Helper lemmas about the fence-stripping interpreter -/

theorem splitLines_ne_nil (s : List Char) : splitLines s ≠ [] := by
  induction s with
  | nil => simp [splitLines]
  | cons c cs ih =>
    simp only [splitLines]
    split
    · simp
    · cases h : splitLines cs <;> simp

theorem splitLines_append (t ys : List Char) :
    splitLines (t ++ '\n' :: ys) = splitLines t ++ splitLines ys := by
  induction t with
  | nil => simp [splitLines]
  | cons c cs ih =>
    by_cases hc : c = '\n'
    · subst hc
      simp only [List.cons_append, splitLines, if_pos rfl, List.append_eq]
      rw [ih]
      rfl
    · simp only [List.cons_append, splitLines, if_neg hc, List.append_eq]
      rw [ih]
      cases h : splitLines cs with
      | nil => exact absurd h (splitLines_ne_nil cs)
      | cons l ls => simp

theorem joinLines_cons_of_ne_nil (ls : List (List Char)) (h : ls ≠ []) :
    joinLines ([] :: ls) = '\n' :: joinLines ls := by
  cases ls with
  | nil => exact absurd rfl h
  | cons a as => rfl

theorem joinLines_append_nil (ls : List (List Char)) (h : ls ≠ []) :
    joinLines (ls ++ [[]]) = joinLines ls ++ ['\n'] := by
  induction ls with
  | nil => exact absurd rfl h
  | cons a as ih =>
    cases as with
    | nil => rfl
    | cons b bs =>
      have step : joinLines ((a :: b :: bs) ++ [[]]) =
          a ++ '\n' :: joinLines ((b :: bs) ++ [[]]) := by
        simp only [List.cons_append, joinLines, List.append_eq]
      rw [step, ih (by simp)]
      simp [joinLines]

theorem pyStrip_cons_ws (c : Char) (h : isPyWs c = true) (s : List Char) :
    pyStrip (c :: s) = pyStrip s := by
  simp [pyStrip, List.dropWhile_cons, h]

theorem pyStrip_append_ws (s : List Char) (c : Char) (h : isPyWs c = true) :
    pyStrip (s ++ [c]) = pyStrip s := by
  unfold pyStrip
  rw [List.dropWhile_append]
  split
  · next h1 =>
    simp only [List.isEmpty_iff] at h1
    rw [h1]
    simp [List.dropWhile_cons, h]
  · next h1 =>
    simp [List.reverse_append, List.dropWhile_cons, h]

theorem cleanFence_open_close (o t : List Char)
    (ho : splitLines o = [o]) (hco : cleanLine o = []) :
    cleanFence (o ++ '\n' :: (t ++ '\n' :: fenceClose)) = cleanFence t := by
  unfold cleanFence
  rw [splitLines_append, splitLines_append, ho]
  have hfc : splitLines fenceClose = [fenceClose] := by decide
  have hclfc : cleanLine fenceClose = [] := by decide
  rw [hfc]
  simp only [List.map_append, List.map_cons, List.map_nil, hco, hclfc]
  have hM : (splitLines t).map cleanLine ≠ [] := by
    simp [List.map_eq_nil_iff, splitLines_ne_nil t]
  have hMM : (splitLines t).map cleanLine ++ [[]] ≠ [] := by simp
  rw [List.singleton_append, joinLines_cons_of_ne_nil _ hMM,
    joinLines_append_nil _ hM]
  rw [pyStrip_cons_ws '\n' (by decide), pyStrip_append_ws _ '\n' (by decide)]

/-- C6: as stated, the claim fails for an opening fence carrying a
language tag other than `json`: the regex `^```json|```$` does not
remove such a line, so parsing the wrapped text differs from parsing
the unwrapped text.  Witnessed by the tag `python` around the valid
JSON text `{}`. -/
theorem c6_counterexample :
    extract_json_from_gemini_response (fenceWrap (("python").toList) rawEmptyObj) = none ∧
    extract_json_from_gemini_response rawEmptyObj = some (Json.obj []) ∧
    extract_json_from_gemini_response (fenceWrap (("python").toList) rawEmptyObj) ≠
      extract_json_from_gemini_response rawEmptyObj := by
  refine ⟨by rfl, by rfl, ?_⟩
  intro h
  rw [show extract_json_from_gemini_response
        (fenceWrap (("python").toList) rawEmptyObj) = none from rfl,
      show extract_json_from_gemini_response rawEmptyObj = some (Json.obj [])
        from rfl] at h
  exact Option.noConfusion h

/-- C6 (amended): for every raw oracle text `t`, wrapping `t` in
leading/trailing code-fence delimiter lines whose opening fence carries
the tag `json` or no tag at all yields the same parsed result as the
unwrapped text.  (A fence with any other language tag is not stripped;
see the counterexample.) -/
theorem c6_fence_roundtrip (t : List Char) :
    extract_json_from_gemini_response (fenceWrap (("json").toList) t) =
      extract_json_from_gemini_response t ∧
    extract_json_from_gemini_response (fenceWrap [] t) =
      extract_json_from_gemini_response t := by
  constructor
  · unfold extract_json_from_gemini_response
    rw [show fenceWrap (("json").toList) t =
          ("```json").toList ++ '\n' :: (t ++ '\n' :: fenceClose) from rfl]
    rw [cleanFence_open_close _ t (by decide) (by decide)]
  · unfold extract_json_from_gemini_response
    rw [show fenceWrap [] t =
          ("```").toList ++ '\n' :: (t ++ '\n' :: fenceClose) from rfl]
    rw [cleanFence_open_close _ t (by decide) (by decide)]

/-! ## Session-level claims -/

/-- C1: when the executor reports task completion (`exit_now` after a
successful click), `visit_website` returns the Python value `False` —
the same value an all-selectors-failed session returns — and never the
recommendation itself, contradicting the function's stated contract
(`Returns navigation instructions from Gemini`, return type
`Optional[Dict]`).  The model's result type records exactly the values
the source can return: `None` or `False`. -/
theorem c1_stop_returns_false_signal :
    SessionOut.result (visit_website Bstop Ostop 100 10 promptEx) =
      some (some false) ∧
    SessionOut.result (visit_website Bfail Ocont 100 10 promptEx) =
      some (some false) ∧
    SessionOut.result (visit_website Bstop Ostop 100 10 promptEx) =
      SessionOut.result (visit_website Bfail Ocont 100 10 promptEx) :=
  ⟨rfl, rfl, rfl⟩

/-- C2: as stated the claim is false.  On a page whose only attached
element is invisible, the visibility-filtered Observation is empty, yet
the loop does not stop: the emptiness test of `visit_website` (line 41)
inspects the raw `a, button` query result before visibility filtering,
so the oracle is still invoked. -/
theorem c2_counterexample :
    process_elements (Bhidden.elems 0) = [] ∧
    Bhidden.elems 0 ≠ [] ∧
    countEv isOracleEv
      (SessionOut.trace (visit_website Bhidden Ogarbage 100 10 promptEx)) = 1 := by
  refine ⟨rfl, ?_, rfl⟩
  intro h
  exact List.noConfusion h

/-- C2 (amended): when the raw extracted element list (before
visibility filtering) is empty, the session terminates immediately with
the null result and the oracle is never invoked. -/
theorem c2_empty_raw_no_oracle (B : Browser) (O : Oracle) (mt fuel : Nat)
    (p u : List Char) (hL : B.launchOk = true) (hE : B.elems 0 = [])
    (hU : extract_url_from_prompt p = some u) (hmt : 0 < mt) :
    visit_website B O mt fuel p =
      SessionOut.done none
        [Event.launch, Event.gotoUrl u, Event.extract 0, Event.closeBrowser] ∧
    countEv isOracleEv (SessionOut.trace (visit_website B O mt fuel p)) = 0 := by
  obtain ⟨n, rfl⟩ : ∃ n, mt = n + 1 := ⟨mt - 1, by omega⟩
  have h1 : visit_website B O (n + 1) fuel p =
      SessionOut.done none
        [Event.launch, Event.gotoUrl u, Event.extract 0, Event.closeBrowser] := by
    unfold visit_website
    rw [hL, hU]
    simp only [if_true]
    unfold loopIter
    simp only [hE]
    rfl
  refine ⟨h1, ?_⟩
  rw [h1]
  rfl

/-- C2 witness: the empty page terminates a concrete session with the
null result and no oracle call. -/
theorem c2_witness :
    visit_website Bempty Ogarbage 100 10 promptEx =
      SessionOut.done none
        [Event.launch, Event.gotoUrl urlEx, Event.extract 0,
         Event.closeBrowser] ∧
    countEv isOracleEv
      (SessionOut.trace (visit_website Bempty Ogarbage 100 10 promptEx)) = 0 :=
  c2_empty_raw_no_oracle Bempty Ogarbage 100 10 promptEx urlEx rfl rfl rfl
    (by decide)

/-- C5: as stated the claim is false — the browser is launched before
the prompt is inspected for a URL (`chromium.launch` at line 29 runs
before `_extract_url_from_prompt` at line 32), so a URL-less
instruction still acquires the browser. -/
theorem c5_counterexample :
    extract_url_from_prompt promptNoUrl = none ∧
    SessionOut.trace (visit_website Bstop Ostop 100 10 promptNoUrl) =
      [Event.launch, Event.closeBrowser] ∧
    countEv isLaunchEv
      (SessionOut.trace (visit_website Bstop Ostop 100 10 promptNoUrl)) = 1 :=
  ⟨rfl, rfl, rfl⟩

/-- C5 (amended): a URL-less instruction makes the session abort with
the null result, but only after the browser has been launched; the
`finally` block then releases it. -/
theorem c5_no_url_aborts_after_launch (B : Browser) (O : Oracle)
    (mt fuel : Nat) (p : List Char) (hL : B.launchOk = true)
    (hU : extract_url_from_prompt p = none) :
    visit_website B O mt fuel p =
      SessionOut.done none [Event.launch, Event.closeBrowser] := by
  unfold visit_website
  rw [hL, hU]
  rfl

/-- C5 witness at a concrete session. -/
theorem c5_witness :
    visit_website Bcont Ocont 100 10 promptNoUrl =
      SessionOut.done none [Event.launch, Event.closeBrowser] :=
  c5_no_url_aborts_after_launch Bcont Ocont 100 10 promptNoUrl rfl rfl

/-- C4: as stated the claim is false.  The oracle text `{}` passes
`json.loads`, then the missing `recommended_action` key raises a
`KeyError` that `_click_recommended_elements` catches itself, returning
`False`; the session therefore ends with the `False` (ActionFailed)
signal, not the null DecisionError result the claim requires. -/
theorem c4_counterexample :
    extract_json_from_gemini_response rawEmptyObj = some (Json.obj []) ∧
    SessionOut.result (visit_website Bstop OemptyObj 100 10 promptEx) =
      some (some false) ∧
    SessionOut.result (visit_website Bstop OemptyObj 100 10 promptEx) ≠
      some none := by
  refine ⟨rfl, rfl, ?_⟩
  intro h
  rw [show SessionOut.result (visit_website Bstop OemptyObj 100 10 promptEx) =
        some (some false) from rfl] at h
  simp at h

/-- C4 (amended): only a response on which `json.loads` itself fails
terminates the session with the null result; a response that parses but
lacks a required field — the whole `recommended_action` object, its
`element_text`, or `next_steps` — raises a `KeyError` the executor
catches itself, terminating the session with the `False` signal
instead. -/
theorem c4_missing_field_false_malformed_null (B : Browser) (O : Oracle)
    (mt fuel : Nat) (p u : List Char) (hL : B.launchOk = true)
    (hU : extract_url_from_prompt p = some u)
    (hne : (B.elems 0).isEmpty = false) :
    (extract_json_from_gemini_response (O 0) = none →
      visit_website B O (mt + 1) fuel p =
        SessionOut.done none
          [Event.launch, Event.gotoUrl u, Event.extract (B.elems 0).length,
           Event.oracleCall 0, Event.closeBrowser]) ∧
    (∀ tf, extract_json_from_gemini_response (O 0) = some (Json.obj tf) →
      jLookup tf raKey = none →
      visit_website B O (mt + 1) fuel p =
        SessionOut.done (some false)
          [Event.launch, Event.gotoUrl u, Event.extract (B.elems 0).length,
           Event.oracleCall 0, Event.closeBrowser]) ∧
    (∀ tf raf, extract_json_from_gemini_response (O 0) = some (Json.obj tf) →
      jLookup tf raKey = some (Json.obj raf) →
      jLookup raf etKey = none →
      visit_website B O (mt + 1) fuel p =
        SessionOut.done (some false)
          [Event.launch, Event.gotoUrl u, Event.extract (B.elems 0).length,
           Event.oracleCall 0, Event.closeBrowser]) ∧
    (∀ tf raf attrs et,
      extract_json_from_gemini_response (O 0) = some (Json.obj tf) →
      jLookup tf raKey = some (Json.obj raf) →
      jLookup raf etKey = some (Json.str et) →
      jLookup raf attrKey = some (Json.obj attrs) →
      jLookup tf nsKey = none →
      visit_website B O (mt + 1) fuel p =
        SessionOut.done (some false)
          [Event.launch, Event.gotoUrl u, Event.extract (B.elems 0).length,
           Event.oracleCall 0, Event.closeBrowser]) := by
  refine ⟨?_, ?_, ?_, ?_⟩
  · intro hparse
    unfold visit_website
    rw [hL, hU]
    simp only [if_true]
    unfold loopIter
    simp only [hne, Bool.false_eq_true, if_false]
    unfold click_recommended_elements
    simp only [hparse]
    rfl
  · intro tf hparse hmiss
    unfold visit_website
    rw [hL, hU]
    simp only [if_true]
    unfold loopIter
    simp only [hne, Bool.false_eq_true, if_false]
    unfold click_recommended_elements
    simp only [hparse]
    unfold clickRecJson
    simp only [raKey] at hmiss
    simp only [hmiss]
    rfl
  · intro tf raf hparse hra hmiss
    unfold visit_website
    rw [hL, hU]
    simp only [if_true]
    unfold loopIter
    simp only [hne, Bool.false_eq_true, if_false]
    unfold click_recommended_elements
    simp only [hparse]
    unfold clickRecJson
    simp only [raKey] at hra
    simp only [etKey] at hmiss
    simp only [hra, hmiss]
    rfl
  · intro tf raf attrs et hparse hra het hattr hmiss
    unfold visit_website
    rw [hL, hU]
    simp only [if_true]
    unfold loopIter
    simp only [hne, Bool.false_eq_true, if_false]
    unfold click_recommended_elements
    simp only [hparse]
    unfold clickRecJson
    simp only [raKey] at hra
    simp only [etKey] at het
    simp only [attrKey] at hattr
    simp only [nsKey] at hmiss
    simp only [hra, het, hattr, hmiss]
    rfl

/-- C4 witness at concrete sessions: a non-JSON oracle yields the null
result; oracles missing `recommended_action`, missing `element_text`,
or missing `next_steps` each yield the `False` signal. -/
theorem c4_witness :
    visit_website Bstop Ogarbage (99 + 1) 10 promptEx =
      SessionOut.done none
        [Event.launch, Event.gotoUrl urlEx, Event.extract 1,
         Event.oracleCall 0, Event.closeBrowser] ∧
    visit_website Bstop OemptyObj (99 + 1) 10 promptEx =
      SessionOut.done (some false)
        [Event.launch, Event.gotoUrl urlEx, Event.extract 1,
         Event.oracleCall 0, Event.closeBrowser] ∧
    visit_website Bstop OnoText (99 + 1) 10 promptEx =
      SessionOut.done (some false)
        [Event.launch, Event.gotoUrl urlEx, Event.extract 1,
         Event.oracleCall 0, Event.closeBrowser] ∧
    visit_website Bstop OnoSteps (99 + 1) 10 promptEx =
      SessionOut.done (some false)
        [Event.launch, Event.gotoUrl urlEx, Event.extract 1,
         Event.oracleCall 0, Event.closeBrowser] :=
  ⟨(c4_missing_field_false_malformed_null Bstop Ogarbage 99 10 promptEx urlEx
      rfl rfl rfl).1 rfl,
   (c4_missing_field_false_malformed_null Bstop OemptyObj 99 10 promptEx urlEx
      rfl rfl rfl).2.1 [] rfl rfl,
   (c4_missing_field_false_malformed_null Bstop OnoText 99 10 promptEx urlEx
      rfl rfl rfl).2.2.1 [(raKey, Json.obj [])] [] rfl rfl rfl,
   (c4_missing_field_false_malformed_null Bstop OnoSteps 99 10 promptEx urlEx
      rfl rfl rfl).2.2.2
     [(raKey, Json.obj [(etKey, Json.str (("Go").toList)),
        (attrKey, Json.obj [])])]
     [(etKey, Json.str (("Go").toList)), (attrKey, Json.obj [])] []
     (("Go").toList) rfl rfl rfl rfl rfl⟩

/-- C3: as stated the claim is false on both disjuncts it bundles.
First, a recommendation with no `href` entry does not take the
hover path: the source only hovers when `href == "#"` exactly, so the
missing-`href` recommendation goes to the direct-link selectors (the
first selector interpolating Python's `None`).  Second, when no
ancestor list item matches (`locator(...).count() == 0`), the executor
does not fail: it falls through to the selector loop and can even
report `continue`. -/
theorem c3_counterexample :
    (countEv isHoverEv
       ((click_recommended_elements Bfail Ocont 10 st0 rawNoHref).stOf).tr = 0 ∧
     clickAttempts
       ((click_recommended_elements Bfail Ocont 10 st0 rawNoHref).stOf).tr =
       [Selector.hrefSel none, Selector.textSel (("Go").toList)]) ∧
    (Bstop.liCount 0 (("Services").toList) = 0 ∧
     ExecOut.retVal (click_recommended_elements Bstop Odrop 10 st0 rawDrop) =
       some true) :=
  ⟨⟨rfl, rfl⟩, ⟨rfl, rfl⟩⟩

/-- C3 (amended): the executor takes the hover-then-reselect path only
when `element_attributes` carries `href` exactly equal to `"#"`; with
any other `href` value, or none, it takes the direct-link selector
path.  When no ancestor list item is found it likewise falls through to
the direct-link selectors instead of failing, and when the hover
succeeds but the re-extracted submenu is empty it also falls through to
the direct-link selectors (from the post-hover page state); only a
raised hover makes the outcome `failed` (`False`). -/
theorem c3_executor_branching (B : Browser) (O : Oracle) (fuel : Nat)
    (st : St) (tf raf attrs : List (List Char × Json)) (et : List Char)
    (ns step0 : Json)
    (h1 : jLookup tf raKey = some (Json.obj raf))
    (h2 : jLookup raf etKey = some (Json.str et))
    (h3 : jLookup raf attrKey = some (Json.obj attrs))
    (h4 : jLookup tf nsKey = some ns)
    (h5 : firstStep ns = some step0) :
    (isHashHref (jLookup attrs hrefKey) = false →
      clickRecJson B O fuel st (Json.obj tf) =
        ExecOut.ret
          (trySelectors B step0 st
            [Selector.hrefSel (jLookup attrs hrefKey),
             Selector.textSel (pyStrip et)]).1
          (trySelectors B step0 st
            [Selector.hrefSel (jLookup attrs hrefKey),
             Selector.textSel (pyStrip et)]).2) ∧
    (isHashHref (jLookup attrs hrefKey) = true →
      B.liCount st.pg (pyStrip et) = 0 →
      clickRecJson B O fuel st (Json.obj tf) =
        ExecOut.ret
          (trySelectors B step0 st
            [Selector.hrefSel (jLookup attrs hrefKey),
             Selector.textSel (pyStrip et)]).1
          (trySelectors B step0 st
            [Selector.hrefSel (jLookup attrs hrefKey),
             Selector.textSel (pyStrip et)]).2) ∧
    (isHashHref (jLookup attrs hrefKey) = true →
      0 < B.liCount st.pg (pyStrip et) →
      B.hoverOk st.pg (pyStrip et) = false →
      clickRecJson B O fuel st (Json.obj tf) =
        ExecOut.ret false
          { st with tr := st.tr ++ [Event.hoverAttempt (pyStrip et)] }) ∧
    (isHashHref (jLookup attrs hrefKey) = true →
      0 < B.liCount st.pg (pyStrip et) →
      B.hoverOk st.pg (pyStrip et) = true →
      (B.elems (B.hoverNext st.pg (pyStrip et))).isEmpty = true →
      clickRecJson B O fuel st (Json.obj tf) =
        ExecOut.ret
          (trySelectors B step0
            { st with
              pg := B.hoverNext st.pg (pyStrip et)
              tr := (st.tr ++ [Event.hoverAttempt (pyStrip et),
                Event.hoverSuccess (pyStrip et)]) ++
                [Event.extract
                  (B.elems (B.hoverNext st.pg (pyStrip et))).length] }
            [Selector.hrefSel (jLookup attrs hrefKey),
             Selector.textSel (pyStrip et)]).1
          (trySelectors B step0
            { st with
              pg := B.hoverNext st.pg (pyStrip et)
              tr := (st.tr ++ [Event.hoverAttempt (pyStrip et),
                Event.hoverSuccess (pyStrip et)]) ++
                [Event.extract
                  (B.elems (B.hoverNext st.pg (pyStrip et))).length] }
            [Selector.hrefSel (jLookup attrs hrefKey),
             Selector.textSel (pyStrip et)]).2) := by
  simp only [raKey, etKey, attrKey, nsKey, hrefKey] at h1 h2 h3 h4 h5 ⊢
  unfold clickRecJson
  simp only [h1, h2, h3, h4, h5]
  refine ⟨?_, ?_, ?_, ?_⟩
  · intro hhash
    simp only [hhash, Bool.false_eq_true, if_false]
  · intro hhash hcount
    simp only [hhash, if_true, hcount]
    simp
  · intro hhash hcount hhov
    simp only [hhash, if_true, hcount, hhov]
    simp [hcount]
  · intro hhash hcount hhov hemp
    simp only [hhash, if_true, hhov, hemp]
    simp [hcount]

/-- C3 witness: the `href="#"` recommendation on a page with no
matching ancestor list item goes to the direct-link selector loop, and
on a page where the hover succeeds but the submenu is empty it likewise
goes to the direct-link selector loop from the post-hover state. -/
theorem c3_witness :
    (isHashHref (jLookup attrsDrop hrefKey) = true ∧
     Bstop.liCount st0.pg (pyStrip (("Services").toList)) = 0 ∧
     clickRecJson Bstop Odrop 10 st0 (Json.obj tfDrop) =
       ExecOut.ret
         (trySelectors Bstop (Json.str (("hover").toList)) st0
           [Selector.hrefSel (jLookup attrsDrop hrefKey),
            Selector.textSel (pyStrip (("Services").toList))]).1
         (trySelectors Bstop (Json.str (("hover").toList)) st0
           [Selector.hrefSel (jLookup attrsDrop hrefKey),
            Selector.textSel (pyStrip (("Services").toList))]).2) ∧
    (0 < BdropEmpty.liCount st0.pg (pyStrip (("Services").toList)) ∧
     BdropEmpty.hoverOk st0.pg (pyStrip (("Services").toList)) = true ∧
     (BdropEmpty.elems
       (BdropEmpty.hoverNext st0.pg
         (pyStrip (("Services").toList)))).isEmpty = true ∧
     clickRecJson BdropEmpty Odrop 10 st0 (Json.obj tfDrop) =
       ExecOut.ret
         (trySelectors BdropEmpty (Json.str (("hover").toList))
           { st0 with
             pg := BdropEmpty.hoverNext st0.pg
               (pyStrip (("Services").toList))
             tr := (st0.tr ++
               [Event.hoverAttempt (pyStrip (("Services").toList)),
                Event.hoverSuccess (pyStrip (("Services").toList))]) ++
               [Event.extract
                 (BdropEmpty.elems
                   (BdropEmpty.hoverNext st0.pg
                     (pyStrip (("Services").toList)))).length] }
           [Selector.hrefSel (jLookup attrsDrop hrefKey),
            Selector.textSel (pyStrip (("Services").toList))]).1
         (trySelectors BdropEmpty (Json.str (("hover").toList))
           { st0 with
             pg := BdropEmpty.hoverNext st0.pg
               (pyStrip (("Services").toList))
             tr := (st0.tr ++
               [Event.hoverAttempt (pyStrip (("Services").toList)),
                Event.hoverSuccess (pyStrip (("Services").toList))]) ++
               [Event.extract
                 (BdropEmpty.elems
                   (BdropEmpty.hoverNext st0.pg
                     (pyStrip (("Services").toList)))).length] }
           [Selector.hrefSel (jLookup attrsDrop hrefKey),
            Selector.textSel (pyStrip (("Services").toList))]).2) :=
  ⟨⟨rfl, rfl,
    (c3_executor_branching Bstop Odrop 10 st0 tfDrop rafDrop attrsDrop
      (("Services").toList) (Json.arr [Json.str (("hover").toList)])
      (Json.str (("hover").toList)) rfl rfl rfl rfl rfl).2.1 rfl rfl⟩,
   ⟨by decide, rfl, rfl,
    (c3_executor_branching BdropEmpty Odrop 10 st0 tfDrop rafDrop attrsDrop
      (("Services").toList) (Json.arr [Json.str (("hover").toList)])
      (Json.str (("hover").toList)) rfl rfl rfl rfl rfl).2.2.2 rfl
      (by decide) rfl rfl⟩⟩

/-- C9: on the direct-link path the executor always attempts the
`href`-attribute selector first and the trimmed-text selector second,
and the first selector that succeeds determines both outcome and page
transition: when the attribute selector succeeds the text selector is
never attempted; when only the text selector succeeds it determines the
outcome; when both fail the outcome is `failed`. -/
theorem c9_selector_order (B : Browser) (O : Oracle) (fuel : Nat)
    (st : St) (tf raf attrs : List (List Char × Json)) (et : List Char)
    (ns step0 : Json)
    (h1 : jLookup tf raKey = some (Json.obj raf))
    (h2 : jLookup raf etKey = some (Json.str et))
    (h3 : jLookup raf attrKey = some (Json.obj attrs))
    (h4 : jLookup tf nsKey = some ns)
    (h5 : firstStep ns = some step0)
    (hhash : isHashHref (jLookup attrs hrefKey) = false) :
    (B.clickOk st.pg (Selector.hrefSel (jLookup attrs hrefKey)) = true →
      clickRecJson B O fuel st (Json.obj tf) =
        ExecOut.ret (if isExitNow step0 then false else true)
          { st with
            pg := B.clickNext st.pg (Selector.hrefSel (jLookup attrs hrefKey))
            tr := (st.tr ++
              [Event.clickAttempt (Selector.hrefSel (jLookup attrs hrefKey))]) ++
              [Event.clickSuccess (Selector.hrefSel (jLookup attrs hrefKey))] }) ∧
    (B.clickOk st.pg (Selector.hrefSel (jLookup attrs hrefKey)) = false →
      B.clickOk st.pg (Selector.textSel (pyStrip et)) = true →
      clickRecJson B O fuel st (Json.obj tf) =
        ExecOut.ret (if isExitNow step0 then false else true)
          { st with
            pg := B.clickNext st.pg (Selector.textSel (pyStrip et))
            tr := ((st.tr ++
              [Event.clickAttempt (Selector.hrefSel (jLookup attrs hrefKey))]) ++
              [Event.clickAttempt (Selector.textSel (pyStrip et))]) ++
              [Event.clickSuccess (Selector.textSel (pyStrip et))] }) ∧
    (B.clickOk st.pg (Selector.hrefSel (jLookup attrs hrefKey)) = false →
      B.clickOk st.pg (Selector.textSel (pyStrip et)) = false →
      clickRecJson B O fuel st (Json.obj tf) =
        ExecOut.ret false
          { st with
            tr := (st.tr ++
              [Event.clickAttempt (Selector.hrefSel (jLookup attrs hrefKey))]) ++
              [Event.clickAttempt (Selector.textSel (pyStrip et))] }) := by
  simp only [raKey, etKey, attrKey, nsKey, hrefKey] at h1 h2 h3 h4 h5 hhash ⊢
  unfold clickRecJson
  simp only [h1, h2, h3, h4, h5, hhash, Bool.false_eq_true, if_false]
  refine ⟨?_, ?_, ?_⟩
  · intro hc1
    unfold trySelectors
    simp only [hc1, if_true]
    by_cases hex : isExitNow step0 = true
    · simp only [hex, if_true]
    · simp only [Bool.not_eq_true] at hex
      simp only [hex, Bool.false_eq_true, if_false]
  · intro hc1 hc2
    unfold trySelectors
    simp only [hc1, Bool.false_eq_true, if_false]
    unfold trySelectors
    simp only [hc2, if_true]
    by_cases hex : isExitNow step0 = true
    · simp only [hex, if_true]
    · simp only [Bool.not_eq_true] at hex
      simp only [hex, Bool.false_eq_true, if_false]
  · intro hc1 hc2
    unfold trySelectors
    simp only [hc1, Bool.false_eq_true, if_false]
    unfold trySelectors
    simp only [hc2, Bool.false_eq_true, if_false]
    unfold trySelectors
    rfl

/-- C9 witness: with every click succeeding, the outcome is taken from
the attribute selector and the text selector is never attempted. -/
theorem c9_witness :
    clickRecJson Bstop Ocont 10 st0 (Json.obj tfCont) =
      ExecOut.ret true
        { st0 with
          pg := 0
          tr := (st0.tr ++
            [Event.clickAttempt (Selector.hrefSel (jLookup attrsCont hrefKey))]) ++
            [Event.clickSuccess (Selector.hrefSel (jLookup attrsCont hrefKey))] } :=
  (c9_selector_order Bstop Ocont 10 st0 tfCont rafCont attrsCont
    (("Go").toList) (Json.arr [Json.str (("again").toList)])
    (Json.str (("again").toList)) rfl rfl rfl rfl rfl rfl).1 rfl

/-! ## Trace bookkeeping for the resource-discipline claim -/

theorem countEv_append (p : Event → Bool) (a b : List Event) :
    countEv p (a ++ b) = countEv p a + countEv p b := by
  simp [countEv, List.filter_append]

theorem trySelectors_countEv (B : Browser) (p : Event → Bool)
    (hp : ∀ e, isStepEv e = true → p e = false) (step0 : Json) :
    ∀ (sels : List Selector) (st : St),
    countEv p (trySelectors B step0 st sels).2.tr = countEv p st.tr := by
  intro sels
  induction sels with
  | nil => intro st; rfl
  | cons sel rest ih =>
    intro st
    unfold trySelectors
    have hatt : p (Event.clickAttempt sel) = false := hp _ rfl
    have hsucc : p (Event.clickSuccess sel) = false := hp _ rfl
    split
    · split <;> simp [countEv_append, countEv, hatt, hsucc]
    · rw [ih]
      simp [countEv_append, countEv, hatt]

theorem countEv_nil (p : Event → Bool) : countEv p [] = 0 := rfl

theorem countEv_cons (p : Event → Bool) (e : Event) (tr : List Event) :
    countEv p (e :: tr) = (if p e = true then 1 else 0) + countEv p tr := by
  by_cases h : p e = true
  all_goals simp [countEv, List.filter_cons, h]
  all_goals omega

theorem clickRecJson_countEv (B : Browser) (O : Oracle) (p : Event → Bool)
    (hp : ∀ e, isStepEv e = true → p e = false) :
    ∀ (fuel : Nat) (st : St) (j : Json),
    countEv p ((clickRecJson B O fuel st j).stOf).tr = countEv p st.tr := by
  have hA : ∀ s, p (Event.clickAttempt s) = false := fun s => hp _ rfl
  have hS : ∀ s, p (Event.clickSuccess s) = false := fun s => hp _ rfl
  have hH : ∀ t, p (Event.hoverAttempt t) = false := fun t => hp _ rfl
  have hHS : ∀ t, p (Event.hoverSuccess t) = false := fun t => hp _ rfl
  have hX : ∀ n, p (Event.extract n) = false := fun n => hp _ rfl
  have hO : ∀ n, p (Event.oracleCall n) = false := fun n => hp _ rfl
  intro fuel
  induction fuel with
  | zero =>
    intro st j
    unfold clickRecJson
    dsimp only
    repeat' split
    all_goals
      simp [ExecOut.stOf, trySelectors_countEv B p hp, countEv_append,
        countEv_cons, countEv_nil, hA, hS, hH, hHS, hX, hO]
  | succ f ih =>
    intro st j
    unfold clickRecJson
    dsimp only
    repeat' split
    all_goals
      try (rename_i st' heq
           first
           | (rw [← heq, ih]
              simp [ExecOut.stOf, countEv_append, countEv_cons, countEv_nil,
                hA, hS, hH, hHS, hX, hO])
           | (show countEv p ((ExecOut.exc st').stOf).tr = countEv p st.tr
              rw [← heq, ih]
              simp [ExecOut.stOf, countEv_append, countEv_cons, countEv_nil,
                hA, hS, hH, hHS, hX, hO]))
    all_goals
      simp [ExecOut.stOf, trySelectors_countEv B p hp, countEv_append,
        countEv_cons, countEv_nil, hA, hS, hH, hHS, hX, hO]

theorem click_countEv (B : Browser) (O : Oracle) (p : Event → Bool)
    (hp : ∀ e, isStepEv e = true → p e = false) (fuel : Nat) (st : St)
    (raw : List Char) :
    countEv p ((click_recommended_elements B O fuel st raw).stOf).tr =
      countEv p st.tr := by
  unfold click_recommended_elements
  split
  · rfl
  · exact clickRecJson_countEv B O p hp fuel st _

theorem isCloseEv_step (e : Event) (he : isStepEv e = true) :
    isCloseEv e = false := by
  cases e <;> simp_all [isStepEv, isCloseEv]

theorem isLaunchEv_step (e : Event) (he : isStepEv e = true) :
    isLaunchEv e = false := by
  cases e <;> simp_all [isStepEv, isLaunchEv]

theorem loopIter_done_counts (B : Browser) (O : Oracle) (fuel : Nat) :
    ∀ (n : Nat) (st : St) (r : Option Bool) (tr : List Event),
    loopIter B O fuel n st = SessionOut.done r tr →
    countEv isCloseEv tr = countEv isCloseEv st.tr + 1 ∧
    countEv isLaunchEv tr = countEv isLaunchEv st.tr := by
  intro n
  induction n with
  | zero =>
    intro st r tr h
    unfold loopIter at h
    cases h
    constructor <;>
      simp [countEv_append, countEv_cons, countEv_nil, isCloseEv, isLaunchEv]
  | succ n ih =>
    intro st r tr h
    unfold loopIter at h
    dsimp only at h
    split at h
    · cases h
      constructor <;>
        simp [countEv_append, countEv_cons, countEv_nil, isCloseEv,
          isLaunchEv, isStepEv]
    · split at h
      · exact SessionOut.noConfusion h
      · rename_i st' heq
        cases h
        have hx1 : countEv isCloseEv st'.tr = countEv isCloseEv st.tr := by
          rw [show st'.tr = ((ExecOut.exc st').stOf).tr from rfl, ← heq,
            click_countEv B O _ isCloseEv_step]
          simp [countEv_append, countEv_cons, countEv_nil, isCloseEv]
        have hx2 : countEv isLaunchEv st'.tr = countEv isLaunchEv st.tr := by
          rw [show st'.tr = ((ExecOut.exc st').stOf).tr from rfl, ← heq,
            click_countEv B O _ isLaunchEv_step]
          simp [countEv_append, countEv_cons, countEv_nil, isLaunchEv]
        constructor <;>
          simp [countEv_append, countEv_cons, countEv_nil, isCloseEv,
            isLaunchEv, hx1, hx2]
      · rename_i st' heq
        have hx1 : countEv isCloseEv st'.tr = countEv isCloseEv st.tr := by
          rw [show st'.tr = ((ExecOut.ret true st').stOf).tr from rfl, ← heq,
            click_countEv B O _ isCloseEv_step]
          simp [countEv_append, countEv_cons, countEv_nil, isCloseEv]
        have hx2 : countEv isLaunchEv st'.tr = countEv isLaunchEv st.tr := by
          rw [show st'.tr = ((ExecOut.ret true st').stOf).tr from rfl, ← heq,
            click_countEv B O _ isLaunchEv_step]
          simp [countEv_append, countEv_cons, countEv_nil, isLaunchEv]
        have := ih _ _ _ h
        omega
      · rename_i st' heq
        cases h
        have hx1 : countEv isCloseEv st'.tr = countEv isCloseEv st.tr := by
          rw [show st'.tr = ((ExecOut.ret false st').stOf).tr from rfl, ← heq,
            click_countEv B O _ isCloseEv_step]
          simp [countEv_append, countEv_cons, countEv_nil, isCloseEv]
        have hx2 : countEv isLaunchEv st'.tr = countEv isLaunchEv st.tr := by
          rw [show st'.tr = ((ExecOut.ret false st').stOf).tr from rfl, ← heq,
            click_countEv B O _ isLaunchEv_step]
          simp [countEv_append, countEv_cons, countEv_nil, isLaunchEv]
        constructor <;>
          simp [countEv_append, countEv_cons, countEv_nil, isCloseEv,
            isLaunchEv, hx1, hx2]

/-- C7: whenever a session terminates (on any exit path — success
signal, failure signal, budget exhaustion, or an exception escaping the
loop body), the number of browser-release events in its trace equals
the number of browser-acquisition events, and is at most one: a
launched browser is closed exactly once, and no close happens without a
launch. -/
theorem c7_browser_released_once (B : Browser) (O : Oracle)
    (mt fuel : Nat) (p : List Char) (r : Option Bool) (tr : List Event)
    (h : visit_website B O mt fuel p = SessionOut.done r tr) :
    countEv isCloseEv tr = countEv isLaunchEv tr ∧
    countEv isCloseEv tr ≤ 1 := by
  unfold visit_website at h
  split at h
  · split at h
    · cases h
      exact ⟨rfl, by decide⟩
    · have := loopIter_done_counts B O fuel mt _ r tr h
      revert this
      simp [countEv_append, countEv_cons, countEv_nil, isCloseEv, isLaunchEv]
      omega
  · cases h
    exact ⟨rfl, by decide⟩

/-- C7 witness at a concrete terminating session. -/
theorem c7_witness :
    countEv isCloseEv
        (SessionOut.trace (visit_website Bstop Ostop 100 10 promptEx)) =
      countEv isLaunchEv
        (SessionOut.trace (visit_website Bstop Ostop 100 10 promptEx)) ∧
    countEv isCloseEv
        (SessionOut.trace (visit_website Bstop Ostop 100 10 promptEx)) ≤ 1 :=
  c7_browser_released_once Bstop Ostop 100 10 promptEx (some false)
    (SessionOut.trace (visit_website Bstop Ostop 100 10 promptEx)) rfl

/-- C8: the iteration bound set in `__init__` is 100; a session in
which every executed action reports `continue` runs the budget out and
falls off the loop, returning the Python `None` — and in particular,
with budget 1 and a first `continue` action, the result is the
exhaustion result `None`, which is a different value from the `False`
the completion (`exit_now`) path returns. -/
theorem c8_budget_exhaustion :
    MAX_TRIES_init = 100 ∧
    (∀ (B : Browser) (O : Oracle) (fuel : Nat),
      (∀ pg, (B.elems pg).isEmpty = false) →
      (∀ (st : St) (n : Nat), ∃ st',
        click_recommended_elements B O fuel st (O n) = ExecOut.ret true st') →
      ∀ (mt : Nat) (st : St), ∃ tr,
        loopIter B O fuel mt st = SessionOut.done none tr) ∧
    SessionOut.result (visit_website Bcont Ocont 1 10 promptEx) = some none ∧
    SessionOut.result (visit_website Bstop Ostop 1 10 promptEx) =
      some (some false) ∧
    (some (none : Option Bool) : Option (Option Bool)) ≠ some (some false) := by
  refine ⟨rfl, ?_, rfl, rfl, by simp⟩
  intro B O fuel hE hC mt
  induction mt with
  | zero => exact fun st => ⟨st.tr ++ [Event.closeBrowser], rfl⟩
  | succ n ih =>
    intro st
    unfold loopIter
    dsimp only
    rw [hE st.pg]
    simp only [Bool.false_eq_true, if_false]
    obtain ⟨st', hst'⟩ := hC
      { pg := st.pg
        calls := st.calls + 1
        tr := st.tr ++ [Event.extract (B.elems st.pg).length] ++
          [Event.oracleCall st.calls] } st.calls
    rw [hst']
    exact ih st'

/-- C8 witness: the all-`continue` hypotheses hold for the concrete
continuing page, and with budget 1 the loop ends with the null
exhaustion result. -/
theorem c8_witness :
    ∃ tr, loopIter Bcont Ocont 10 1 st0 = SessionOut.done none tr :=
  c8_budget_exhaustion.2.1 Bcont Ocont 10 (fun _ => rfl)
    (fun st _ =>
      ⟨{ st with
          pg := 0
          tr := (st.tr ++
            [Event.clickAttempt
              (Selector.hrefSel (some (Json.str (("/a").toList))))]) ++
            [Event.clickSuccess
              (Selector.hrefSel (some (Json.str (("/a").toList))))] }, rfl⟩)
    1 st0

theorem clickRecJson_drop_diverges :
    ∀ (fuel : Nat) (st : St),
    ExecOut.divergeCalls (clickRecJson Bdrop Odrop fuel st jDrop) =
      some (st.calls + fuel + 1) := by
  intro fuel
  induction fuel with
  | zero => intro st; rfl
  | succ f ih =>
    intro st
    have hstep : clickRecJson Bdrop Odrop (f + 1) st jDrop =
        (match clickRecJson Bdrop Odrop f
            { pg := 0
              calls := st.calls + 1
              tr := st.tr ++ [Event.hoverAttempt (("Services").toList),
                Event.hoverSuccess (("Services").toList)] ++ [Event.extract 1] ++
                [Event.oracleCall st.calls] } jDrop with
          | ExecOut.diverge st' => ExecOut.diverge st'
          | ExecOut.exc st' => ExecOut.ret false st'
          | ExecOut.ret b st' => ExecOut.ret b st') := rfl
    rw [hstep]
    have h2 := ih
      { pg := 0
        calls := st.calls + 1
        tr := st.tr ++ [Event.hoverAttempt (("Services").toList),
          Event.hoverSuccess (("Services").toList)] ++ [Event.extract 1] ++
          [Event.oracleCall st.calls] }
    cases hc : clickRecJson Bdrop Odrop f
        { pg := 0
          calls := st.calls + 1
          tr := st.tr ++ [Event.hoverAttempt (("Services").toList),
            Event.hoverSuccess (("Services").toList)] ++ [Event.extract 1] ++
            [Event.oracleCall st.calls] } jDrop with
    | diverge st' =>
      rw [hc] at h2
      simp [ExecOut.divergeCalls] at h2 ⊢
      omega
    | exc st' =>
      rw [hc] at h2
      simp [ExecOut.divergeCalls] at h2
    | ret b st' =>
      rw [hc] at h2
      simp [ExecOut.divergeCalls] at h2

/-- C10: on the dropdown page whose submenu again shows the trigger,
one top-level loop iteration (consuming a single unit of the MAX_TRIES
budget, whatever the budget is) drives the executor into its
hover-then-reselect recursion: for every modelled nesting allowance
`fuel` the execution is still recursing when the allowance runs out,
having issued `fuel + 2` oracle calls in that one iteration — the
nested decision calls and re-entries are not bounded or counted by the
iteration budget. -/
theorem c10_unbounded_nested_recursion (fuel mt : Nat) :
    SessionOut.divergeCalls (visit_website Bdrop Odrop (mt + 1) fuel promptEx) =
      some (fuel + 2) ∧
    SessionOut.isDiverge (visit_website Bdrop Odrop (mt + 1) fuel promptEx) =
      true := by
  have hstep : visit_website Bdrop Odrop (mt + 1) fuel promptEx =
      (match clickRecJson Bdrop Odrop fuel
          { pg := 0
            calls := 1
            tr := [Event.launch, Event.gotoUrl urlEx] ++ [Event.extract 1] ++
              [Event.oracleCall 0] } jDrop with
        | ExecOut.diverge st' => SessionOut.diverge st'
        | ExecOut.exc st' =>
          SessionOut.done none (st'.tr ++ [Event.closeBrowser])
        | ExecOut.ret true st' => loopIter Bdrop Odrop fuel mt st'
        | ExecOut.ret false st' =>
          SessionOut.done (some false) (st'.tr ++ [Event.closeBrowser])) := rfl
  rw [hstep]
  have h2 := clickRecJson_drop_diverges fuel
    { pg := 0
      calls := 1
      tr := [Event.launch, Event.gotoUrl urlEx] ++ [Event.extract 1] ++
        [Event.oracleCall 0] }
  cases hc : clickRecJson Bdrop Odrop fuel
      { pg := 0
        calls := 1
        tr := [Event.launch, Event.gotoUrl urlEx] ++ [Event.extract 1] ++
          [Event.oracleCall 0] } jDrop with
  | diverge st' =>
    rw [hc] at h2
    simp only [ExecOut.divergeCalls] at h2
    simp only [SessionOut.divergeCalls, SessionOut.isDiverge]
    have h3 : st'.calls = 1 + fuel + 1 := by simpa using h2
    constructor
    · simp only [Option.some.injEq, h3]
      omega
    · trivial
  | exc st' =>
    rw [hc] at h2
    simp [ExecOut.divergeCalls] at h2
  | ret b st' =>
    rw [hc] at h2
    simp [ExecOut.divergeCalls] at h2
